import Mathlib

/-!
Verification of the reconciliation behaviour of the amazon.aws plugin
sources. Each Python function that a property depends on is embedded as an
executable Lean definition; AWS API traffic is modelled by passing the
relevant server-side fixture or response in as an argument and returning
the list of requests the module issued. Modules report through
`ModuleOutcome`: `exitJson` for module.exit_json and `failJson` for
module.fail_json (message texts are carried without the quote characters of
the original f-strings).
-/

namespace AmazonAws

/-- Python truthiness of an optional string: `None` and the empty string are
falsy. -/
def pyTruthyStr : Option String → Bool
  | none => false
  | some s => s ≠ ""

/-- Python truthiness of an optional integer: `None` and `0` are falsy. -/
def pyTruthyNat : Option Nat → Bool
  | none => false
  | some n => n ≠ 0

/-- Python `str.strip(chars)`: remove every leading and every trailing
character that belongs to the character set `chars`. -/
def pyStrip (s : String) (chars : List Char) : String :=
  String.mk (((s.data.dropWhile (chars.contains ·)).reverse.dropWhile
    (chars.contains ·)).reverse)

/-- Python `str.startswith(pre)`. -/
def pyStartsWith (s pre : String) : Bool :=
  pre.data.isPrefixOf s.data

/-- Python `dict` equality: the same keys bound to equal values, with
insertion order irrelevant (the dictionaries involved never carry duplicate
keys). -/
def pyDictEq (a b : List (String × String)) : Bool :=
  a.all (fun kv => b.lookup kv.fst = some kv.snd) &&
  b.all (fun kv => a.lookup kv.fst = some kv.snd)

/-- Python `!=` on two values that may each be `None` (an absent dictionary
key reads as `None`). -/
def pyOptNe {α : Type} (eq : α → α → Bool) : Option α → Option α → Bool
  | none, none => false
  | some a, some b => !(eq a b)
  | _, _ => true

/-- The machine-readable error codes of the AWS client errors the embedded
code branches on; every other client error is `otherClientError`. -/
inductive AwsErrorCode
  | resourceNotFound
  | accessDenied
  | dryRunOperation
  | duplicatePlacementGroup
  | unknownPlacementGroup
  | noSuchKeySigningKey
  | otherClientError
deriving DecidableEq, Repr

/-- How a module run ends: `module.exit_json(changed=..., payload)` or
`module.fail_json(msg=...)`. -/
inductive ModuleOutcome (α : Type)
  | exitJson (changed : Bool) (payload : α)
  | failJson (msg : String)
deriving DecidableEq, Repr

/-! ### plugins/modules/ec2_eip.py — generate_tag_dict (claim C10) -/

/-- The character set of the Python literal string "tag:" as used by
`str.strip`. -/
def tagStripChars : List Char := [Char.ofNat 116, Char.ofNat 97, Char.ofNat 103, Char.ofNat 58]

/-- Embedding of `ec2_eip.generate_tag_dict`. `tag_name`/`tag_value` are the
module parameters (absent parameters are `None`); the result is the filter
dictionary passed to Amazon, `None` when no tag name was given. The strip of
the leading and trailing "tag:" characters happens only inside the
`startswith("tag:")` branch. -/
def generate_tag_dict (tag_name tag_value : Option String) :
    Option (List (String × String)) :=
  match tag_name with
  | none => none
  | some tn =>
    if tn = "" then none
    else if pyTruthyStr tag_value = false then
      if pyStartsWith tn "tag:" then
        some [("tag-key", pyStrip tn tagStripChars)]
      else
        some [("tag-key", tn)]
    else
      match tag_value with
      | some tv =>
        if pyStartsWith tn "tag:" then some [(tn, tv)]
        else some [("tag:" ++ tn, tv)]
      | none => none

/-! ### plugins/lookup/aws_secret.py — LookupModule.get_secret_value (claim C5) -/

/-- The `error | skip | warn` policy for `on_missing` and `on_denied`. -/
inductive SecretPolicy
  | policyError
  | policySkip
  | policyWarn
deriving DecidableEq, Repr

/-- The response of a successful `get_secret_value` API call. -/
structure GetSecretValueResponse where
  secretBinary : Option String
  secretString : Option String
deriving DecidableEq, Repr

/-- Embedding of `LookupModule.get_secret_value`. `call` is the outcome of
the `client.get_secret_value` API call. The first generic
`except (ClientError, BotoCoreError)` clause of the method raises the
fatal AnsibleError for every client error;
the `on_missing`/`on_denied` handling written below that clause sits after
the `raise` statement and is unreachable, so the two policy parameters
never influence the result. `Except.error` is the fatal `AnsibleError`;
`Except.ok` carries the returned value (`none` for Python `None`). -/
def get_secret_value (call : Except AwsErrorCode GetSecretValueResponse)
    (on_missing on_denied : SecretPolicy) : Except String (Option String) :=
  match call with
  | .ok r =>
    match r.secretBinary with
    | some b => .ok (some b)
    | none =>
      match r.secretString with
      | some s => .ok (some s)
      | none => .ok none
  | .error _ =>
    let _ := on_missing
    let _ := on_denied
    .error "Failed to retrieve secret"

/-! ### plugins/module_utils/backup.py — _list_backup_plans / get_plan_details (claim C9) -/

/-- One entry of a `BackupPlansList` page, restricted to the two fields the
scan reads. -/
structure BackupPlan where
  backupPlanName : String
  backupPlanId : String
deriving DecidableEq, Repr

/-- The body of the two identical `for backup_plan in entries` loops of
`_list_backup_plans`: return the `BackupPlanId` of the first entry whose
`BackupPlanName` equals the requested name. -/
def scanBackupPage (backup_plan_name : String) : List BackupPlan → Option String
  | [] => none
  | p :: rest =>
    if backup_plan_name = p.backupPlanName then some p.backupPlanId
    else scanBackupPage backup_plan_name rest

/-- The `while next_token is not None` loop of `_list_backup_plans`.
`current` is the response already in hand — on the first iteration
`first_iteration` is still `False`, so the loop re-reads the initial
response without fetching, and only from the second iteration on does it
fetch the next page; `rest` is the sequence of pages the successive
`NextToken` fetches return. -/
def backupPlansLoop (backup_plan_name : String) (current : List BackupPlan) :
    List (List BackupPlan) → Option String :=
  fun rest =>
    match scanBackupPage backup_plan_name current with
    | some planId => some planId
    | none =>
      match rest with
      | [] => none
      | p :: rs => backupPlansLoop backup_plan_name p rs

/-- Embedding of `_list_backup_plans`. `pages` is the sequence of
`BackupPlansList` pages the API hands back: the head for the initial
`list_backup_plans()` call and one further element per `NextToken` fetch;
a page carries a `NextToken` exactly when it is not the last one. When the
first response has no `NextToken` the `if next_token is None` block scans
it and the while loop never runs; otherwise that block is skipped and the
while loop scans the first response and then each fetched page in order.
The function falls off the end (Python `None`) when no entry matches. -/
def list_backup_plans (backup_plan_name : String) :
    List (List BackupPlan) → Option String
  | [] => none
  | firstPage :: rest =>
    match rest with
    | [] => scanBackupPage backup_plan_name firstPage
    | _ :: _ => backupPlansLoop backup_plan_name firstPage rest

/-- Embedding of `get_plan_details`, restricted to the plan identity the
claim is about: when `_list_backup_plans` comes back falsy (`None` or the
empty string) the function returns `[]`; otherwise it returns the
single-element detail list `[_result]` for the plan found, which the
embedding represents by the plan id the details were fetched with. -/
def get_plan_details (backup_plan_name : String)
    (pages : List (List BackupPlan)) : List String :=
  match list_backup_plans backup_plan_name pages with
  | none => []
  | some planId => if planId = "" then [] else [planId]

/-! ### plugins/modules/cloudwatchlogs_log_group_metric_filter.py (claim C7) -/

/-- The snake-case shape of a metric transformation, shared by the module
parameter `metric_transformation` and the API response after
`camel_dict_to_snake_dict`. An absent dictionary key is `none`. The float
`default_value` is only ever compared with `!=`, never computed with, so it
is carried as an opaque literal. -/
structure MetricTransformation where
  metric_name : Option String
  metric_namespace : Option String
  metric_value : Option String
  default_value : Option String
  unit : Option String
  dimensions : Option (List (String × String))
deriving DecidableEq, Repr

/-- The camelCase dictionary `metricTransformationHandler` builds for
`put_metric_filter`: the three mandatory keys are always present (possibly
`None`), the three optional keys only when the parameter is not `None`. -/
structure MetricTransformationRet where
  metricName : Option String
  metricNamespace : Option String
  metricValue : Option String
  defaultValue : Option String
  dimensions : Option (List (String × String))
  unit : Option String
deriving DecidableEq, Repr

/-- Embedding of `metricTransformationHandler`. `origin` is the
`metricTransformations[0]` entry of the existing filter (already in
snake-case shape — `camel_dict_to_snake_dict` only renames keys), or `none`
when no filter exists; Python truthiness makes an empty origin dictionary
take the `else` branch as well, which the `Option` already captures. The
change flag compares the six fields with Python `!=`, where a missing key
reads as `None` and dictionaries compare order-insensitively. -/
def metricTransformationHandler (metricTransformations : MetricTransformation)
    (originMetricTransformations : Option MetricTransformation) :
    List MetricTransformationRet × Bool :=
  let change :=
    match originMetricTransformations with
    | some origin =>
      pyOptNe (fun a b => a = b) metricTransformations.default_value origin.default_value ||
      pyOptNe (fun a b => a = b) metricTransformations.metric_name origin.metric_name ||
      pyOptNe (fun a b => a = b) metricTransformations.metric_namespace origin.metric_namespace ||
      pyOptNe (fun a b => a = b) metricTransformations.metric_value origin.metric_value ||
      pyOptNe (fun a b => a = b) metricTransformations.unit origin.unit ||
      pyOptNe pyDictEq metricTransformations.dimensions origin.dimensions
    | none => true
  let retval : MetricTransformationRet :=
    { metricName := metricTransformations.metric_name
      metricNamespace := metricTransformations.metric_namespace
      metricValue := metricTransformations.metric_value
      defaultValue := metricTransformations.default_value
      dimensions := metricTransformations.dimensions
      unit := metricTransformations.unit }
  ([retval], change)

/-! ### plugins/modules/ec2_placement_group.py (claims C2, C3, C4, C6) -/

/-- A placement group as held on the EC2 side: the fields of a
`PlacementGroups` entry that the module reads. -/
structure PlacementGroup where
  groupName : String
  groupState : String
  strategy : String
  tags : List (String × String)
deriving DecidableEq, Repr

/-- The normalized dictionary `search_placement_group` and
`get_placement_group_information` build (`boto3_tag_list_to_ansible_dict`
turns the tag list into a map; both sides are carried as association lists
here). -/
structure PlacementGroupAttrs where
  name : String
  state : String
  strategy : String
  tags : List (String × String)
deriving DecidableEq, Repr

/-- The module parameters of ec2_placement_group (`argument_spec`):
`state` is validated to `present`/`absent`, `strategy` to
`cluster`/`spread`/`partition`. -/
structure PlacementGroupParams where
  name : String
  partition_count : Option Nat
  state : String
  strategy : String
  tags : Option (List (String × String))
deriving DecidableEq, Repr

/-- The write requests the ec2_placement_group module can issue, with the
`DryRun` flag they were issued with. -/
inductive Ec2Call
  | createPlacementGroup (name strategy : String) (dryRun : Bool)
  | deletePlacementGroup (name : String) (dryRun : Bool)
deriving DecidableEq, Repr

/-- A request mutates the remote state exactly when it is a write issued
without the `DryRun` flag. -/
def Ec2Call.isMutation : Ec2Call → Bool
  | .createPlacementGroup _ _ dryRun => !dryRun
  | .deletePlacementGroup _ dryRun => !dryRun

/-- The `describe_placement_groups(Filters=[group-name])` lookup: every
group on the server whose name is among the filter values (here a single
value). -/
def describe_placement_groups_by_name (server : List PlacementGroup)
    (name : String) : List PlacementGroup :=
  server.filter (fun g => g.groupName = name)

/-- Embedding of `search_placement_group`: a response that does not hold
exactly one group — zero matches and more-than-one match alike — comes back
as `None`; otherwise the single group is normalized. -/
def search_placement_group (server : List PlacementGroup) (name : String) :
    Option PlacementGroupAttrs :=
  let response := describe_placement_groups_by_name server name
  if response.length ≠ 1 then none
  else
    match response with
    | [] => none
    | g :: _ =>
      some { name := g.groupName, state := g.groupState,
             strategy := g.strategy, tags := g.tags }

/-- Embedding of `get_placement_group_information`: describe by
`GroupNames=[name]` and normalize the first entry (after a successful
create the group exists, so the entry is there). -/
def get_placement_group_information (server : List PlacementGroup)
    (name : String) : Option PlacementGroupAttrs :=
  (describe_placement_groups_by_name server name).head?.map
    (fun g => { name := g.groupName, state := g.groupState,
                strategy := g.strategy, tags := g.tags })

/-- EC2 server semantics of `create_placement_group`: a duplicate name is
rejected; otherwise a request carrying `DryRun=True` is answered with the
`DryRunOperation` error instead of being applied; otherwise the group is
created. -/
def ec2CreatePlacementGroup (server : List PlacementGroup)
    (name strategy : String) (tags : List (String × String)) (dryRun : Bool) :
    Except AwsErrorCode (List PlacementGroup) :=
  if (describe_placement_groups_by_name server name).length ≠ 0 then
    .error .duplicatePlacementGroup
  else if dryRun then .error .dryRunOperation
  else .ok (server ++ [{ groupName := name, groupState := "available",
                         strategy := strategy, tags := tags }])

/-- EC2 server semantics of `delete_placement_group`: an unknown name is
rejected; a `DryRun=True` request is answered with `DryRunOperation`;
otherwise the group is removed. -/
def ec2DeletePlacementGroup (server : List PlacementGroup) (name : String)
    (dryRun : Bool) : Except AwsErrorCode (List PlacementGroup) :=
  if (describe_placement_groups_by_name server name).length = 0 then
    .error .unknownPlacementGroup
  else if dryRun then .error .dryRunOperation
  else .ok (server.filter (fun g => g.groupName ≠ name))

/-- The result of one placement-group module run: the module outcome, the
write requests issued, and the EC2 state afterwards. -/
abbrev PlacementGroupRun :=
  ModuleOutcome (Option PlacementGroupAttrs) × List Ec2Call × List PlacementGroup

/-- Embedding of `create_placement_group`. The parameter check fails before
any request; otherwise the create request is issued with
`DryRun=module.check_mode`: a `DryRunOperation` answer exits with
changed=True and the DryRun payload, any other client error is fatal, and
on success the module exits with changed=True and the freshly described
group. -/
def create_placement_group (params : PlacementGroupParams) (checkMode : Bool)
    (server : List PlacementGroup) : PlacementGroupRun :=
  if params.strategy ≠ "partition" ∧ pyTruthyNat params.partition_count then
    (.failJson "partition_count can only be set when strategy is set to partition",
     [], server)
  else
    let call := Ec2Call.createPlacementGroup params.name params.strategy checkMode
    match ec2CreatePlacementGroup server params.name params.strategy
        (params.tags.getD []) checkMode with
    | .error .dryRunOperation =>
      (.exitJson true (some { name := params.name, state := "DryRun",
                              strategy := params.strategy,
                              tags := params.tags.getD [] }),
       [call], server)
    | .error _ =>
      (.failJson ("Couldnt create placement group [" ++ params.name ++ "]"),
       [call], server)
    | .ok newServer =>
      (.exitJson true (get_placement_group_information newServer params.name),
       [call], newServer)

/-- Embedding of `delete_placement_group`. The delete request is issued with
`DryRun=module.check_mode`; every client error — the `DryRunOperation`
answer of a check-mode run included, since only the generic
`except (ClientError, BotoCoreError)` clause is present — is fatal, and on
success the module exits with changed=True. -/
def delete_placement_group (params : PlacementGroupParams) (checkMode : Bool)
    (server : List PlacementGroup) : PlacementGroupRun :=
  let call := Ec2Call.deletePlacementGroup params.name checkMode
  match ec2DeletePlacementGroup server params.name checkMode with
  | .error _ =>
    (.failJson ("Couldnt delete placement group [" ++ params.name ++ "]"),
     [call], server)
  | .ok newServer => (.exitJson true none, [call], newServer)

/-- Embedding of ec2_placement_group `main` after client setup.
`argument_spec` restricts `state` to `present`/`absent`, so the
`elif state == "absent"` branch is the only alternative. -/
def ec2_placement_group_main (params : PlacementGroupParams)
    (checkMode : Bool) (server : List PlacementGroup) : PlacementGroupRun :=
  if params.state = "present" then
    match search_placement_group server params.name with
    | none => create_placement_group params checkMode server
    | some placement_group =>
      if placement_group.strategy = params.strategy then
        (.exitJson false (some placement_group), [], server)
      else
        (.failJson ("Placement group [" ++ params.name ++
          "] exists, cant change strategy from [" ++ placement_group.strategy ++
          "] to [" ++ params.strategy ++ "]"), [], server)
  else
    match search_placement_group server params.name with
    | none => (.exitJson false none, [], server)
    | some _ => delete_placement_group params checkMode server

/-! ### plugins/modules/ec2_placement_group_info.py (claim C1 context) -/

/-- Embedding of `get_placement_groups_details`: with a non-empty `names`
parameter describe filters by those names, otherwise every group is
returned; each entry is normalized. -/
def get_placement_groups_details (server : List PlacementGroup)
    (names : List String) : List PlacementGroupAttrs :=
  let response :=
    if 0 < names.length then
      server.filter (fun g => names.contains g.groupName)
    else server
  response.map (fun g => { name := g.groupName, state := g.groupState,
                           strategy := g.strategy, tags := g.tags })

/-- Embedding of ec2_placement_group_info `main`: a pure describe that
always exits with changed=False. -/
def ec2_placement_group_info_main (server : List PlacementGroup)
    (names : List String) : ModuleOutcome (List PlacementGroupAttrs) :=
  .exitJson false (get_placement_groups_details server names)

/-! ### plugins/modules/ec2_eip.py — find_address and the reverse-DNS update
(claims C2, C4) -/

/-- An Elastic IP address as held on the EC2 side, restricted to the fields
the lookup filters on. -/
structure EipAddress where
  publicIp : String
  instanceId : Option String
  networkInterfaceId : Option String
  allocationId : String
deriving DecidableEq, Repr

/-- The single lookup `find_address` performs: by `PublicIps=[ip]` or by an
`instance-id` / `network-interface-id` filter. -/
inductive AddressQuery
  | byPublicIp (ip : String)
  | byInstanceId (i : String)
  | byNetworkInterfaceId (n : String)
deriving DecidableEq, Repr

/-- The `describe_addresses` answer to one query: the addresses matching
the filter. -/
def describe_addresses (server : List EipAddress) : AddressQuery → List EipAddress
  | .byPublicIp ip => server.filter (fun a => a.publicIp = ip)
  | .byInstanceId i => server.filter (fun a => a.instanceId = some i)
  | .byNetworkInterfaceId n => server.filter (fun a => a.networkInterfaceId = some n)

/-- Embedding of `find_address`: with neither `public_ip` nor `device_id`
the lookup returns `None` without a request; otherwise the describe answer
is inspected — an empty answer stays `None`, more than one match raises
`AnsibleEC2Error`, a single match is returned. -/
def find_address (server : List EipAddress) (public_ip device_id : Option String)
    (is_instance : Bool) : Except String (Option EipAddress) :=
  if pyTruthyStr public_ip = false ∧ pyTruthyStr device_id = false then .ok none
  else
    let query :=
      match public_ip with
      | some ip =>
        if ip ≠ "" then AddressQuery.byPublicIp ip
        else if is_instance then AddressQuery.byInstanceId (device_id.getD "")
        else AddressQuery.byNetworkInterfaceId (device_id.getD "")
      | none =>
        if is_instance then AddressQuery.byInstanceId (device_id.getD "")
        else AddressQuery.byNetworkInterfaceId (device_id.getD "")
    let addresses := describe_addresses server query
    match addresses with
    | [] => .ok none
    | [a] => .ok (some a)
    | _ => .error "Found more than one address"

/-- The skeleton of ec2_eip `main` around the state-dependent work: the
whole flow runs inside one `try`, `find_address` first, so an
`AnsibleEC2Error` raised by the lookup reaches `fail_json_aws_error` before
`ensure_present`/`ensure_absent` — abstracted here as an arbitrary
continuation `ensurePhase` — can issue any request. -/
def ec2_eip_main_flow (server : List EipAddress)
    (public_ip device_id : Option String) (is_instance : Bool)
    (ensurePhase : Option EipAddress → ModuleOutcome Unit × List Ec2Call) :
    ModuleOutcome Unit × List Ec2Call :=
  match find_address server public_ip device_id is_instance with
  | .error e => (.failJson e, [])
  | .ok address => ensurePhase address

/-- The reverse-DNS attribute store: allocation id to current domain name. -/
abbrev EipDnsState := List (String × String)

/-- Embedding of `update_reverse_dns_record_of_eip`. The module issues
`modify_address_attribute` unconditionally — there is no comparison with
the current attribute — and sets changed=True whenever the call does not
raise; an `AnsibleEC2Error` (an unknown allocation, or the
`DryRunOperation` answer when `dry_run=True`) is fatal. The result is the
module outcome carrying the changed flag plus the server state afterwards. -/
def update_reverse_dns_record_of_eip (server : EipDnsState)
    (allocation_id domain_name : String) (dry_run : Bool) :
    ModuleOutcome Bool × EipDnsState :=
  if (server.lookup allocation_id).isNone then
    (.failJson "InvalidAllocationID.NotFound", server)
  else if dry_run then (.failJson "DryRunOperation", server)
  else
    (.exitJson true true,
     server.map (fun kv =>
       if kv.fst = allocation_id then (kv.fst, domain_name) else kv))

/-! ### plugins/modules/ec2_spot_instance_info.py (claim C1) -/

/-- One spot instance request, abstracted to its identity —
`camel_dict_to_snake_dict` only renames keys of the payload. -/
structure SpotInstanceRequest where
  requestId : String
deriving DecidableEq, Repr

/-- The requests ec2_spot_instance_info issues: only the read-only
paginated describe. -/
inductive SpotInfoCall
  | describeSpotInstanceRequests
deriving DecidableEq, Repr

/-- No request of the info module mutates anything. -/
def SpotInfoCall.isMutation : SpotInfoCall → Bool
  | .describeSpotInstanceRequests => false

/-- Embedding of `describe_spot_instance_requests`. The first statement
sets `changed = True`; a check-mode run exits with just that flag, and a
normal run issues the describe and exits with the snake-cased request list
and the same flag. `server` is the paginated describe answer for the
filters/ids the module was given. -/
def describe_spot_instance_requests (checkMode : Bool)
    (server : List SpotInstanceRequest) :
    ModuleOutcome (Option (List SpotInstanceRequest)) × List SpotInfoCall :=
  if checkMode then (.exitJson true none, [])
  else (.exitJson true (some server), [SpotInfoCall.describeSpotInstanceRequests])

/-! ### Nested response dictionaries — route53_ksk and s3_bucket_info
(claim C8) -/

/-- A boto3 response value: a JSON-like tree of dictionaries, strings and
nulls (the leaves that matter here). -/
inductive JsonVal
  | null
  | str (s : String)
  | obj (fields : List (String × JsonVal))

/-- A response dictionary. -/
abbrev JsonDict := List (String × JsonVal)

/-- Python `d[k] = v`: replace the binding in place, or append it. -/
def dictSet (d : JsonDict) (k : String) (v : JsonVal) : JsonDict :=
  if (d.lookup k).isSome then
    d.map (fun kv => if kv.fst = k then (k, v) else kv)
  else d ++ [(k, v)]

/-- Python `del d[k]` / `d.pop(k, None)`. -/
def dictDel (d : JsonDict) (k : String) : JsonDict :=
  d.filter (fun kv => kv.fst ≠ k)

/-- Python `k in d`. -/
def dictContains (d : JsonDict) (k : String) : Bool :=
  (d.lookup k).isSome

/-- The camelCase-to-snake_case key rename performed by
`camel_dict_to_snake_dict`, for keys without digits or acronym runs (the
only kind occurring in these responses): an underscore is inserted before
every non-leading upper-case letter and everything is lowered. -/
def camelToSnake (s : String) : String :=
  String.mk (go s.data true)
where
  go : List Char → Bool → List Char
    | [], _ => []
    | c :: rest, first =>
      if c.isUpper ∧ first = false then
        Char.ofNat 95 :: c.toLower :: go rest false
      else c.toLower :: go rest false

mutual

/-- The rename of `camel_dict_to_snake_dict` over a whole response tree. -/
def camelValToSnake : JsonVal → JsonVal
  | .null => .null
  | .str s => .str s
  | .obj fields => .obj (camelFieldsToSnake fields)

/-- The rename of `camel_dict_to_snake_dict` over the fields of one dictionary. -/
def camelFieldsToSnake : List (String × JsonVal) → List (String × JsonVal)
  | [] => []
  | (k, v) :: rest => (camelToSnake k, camelValToSnake v) :: camelFieldsToSnake rest

end

mutual

/-- Does a response tree hold a dictionary key `k` at any nesting level? -/
def jsonValHasKey : JsonVal → String → Bool
  | .null, _ => false
  | .str _, _ => false
  | .obj fields, k => jsonFieldsHaveKey fields k

/-- Does any field, at any depth, use the key `k`? -/
def jsonFieldsHaveKey : List (String × JsonVal) → String → Bool
  | [], _ => false
  | (k1, v) :: rest, k =>
    k1 = k || jsonValHasKey v k || jsonFieldsHaveKey rest k

end

/-! ### plugins/modules/route53_ksk.py — delete and main (claim C8) -/

/-- The Route53 answers one `state=absent` run of route53_ksk can consume:
the outcomes of the `deactivate_key_signing_key` and
`delete_key_signing_key` calls and the full `get_change` response (the
latter only fetched when `wait=true`). -/
structure Route53Responses where
  deactivateCall : Except AwsErrorCode JsonDict
  deleteCall : Except AwsErrorCode JsonDict
  getChangeResponse : JsonDict

/-- Embedding of route53_ksk `delete`. With `status=INACTIVE` the KSK is
deactivated first (a `NoSuchKeySigningKey` answer returns changed=False
with an empty result; other errors propagate). Then the delete call runs:
on `NoSuchKeySigningKey` the changed flag accumulated so far is returned
with an empty result, on success changed becomes True and, when `wait`,
`response["ChangeInfo"]` is overwritten with the full `get_change`
response. `Except.error` is an exception propagating to `main`. -/
def route53_ksk_delete (status : String) (waitParam : Bool)
    (api : Route53Responses) : Except AwsErrorCode (Bool × JsonDict) :=
  let deleteBranch : Except AwsErrorCode (Bool × JsonDict) :=
    match api.deleteCall with
    | .error .noSuchKeySigningKey => .ok (false, [])
    | .error e => .error e
    | .ok response =>
      if waitParam then
        .ok (true, dictSet response "ChangeInfo" (JsonVal.obj api.getChangeResponse))
      else .ok (true, response)
  if status = "INACTIVE" then
    match api.deactivateCall with
    | .error .noSuchKeySigningKey => .ok (false, [])
    | .error e => .error e
    | .ok _ => deleteBranch
  else deleteBranch

/-- Embedding of route53_ksk `main` for `state=absent`: run `delete`, fail
on a propagated `AnsibleAWSError`, strip the top-level `ResponseMetadata`
key of the result if present, and exit with the snake-cased result. -/
def route53_ksk_main_absent (status : String) (waitParam : Bool)
    (api : Route53Responses) : ModuleOutcome JsonDict :=
  match route53_ksk_delete status waitParam api with
  | .error _ => .failJson "route53_ksk failed"
  | .ok (changed, result) =>
    let result :=
      if dictContains result "ResponseMetadata" then
        dictDel result "ResponseMetadata"
      else result
    .exitJson changed (camelFieldsToSnake result)

/-! ### plugins/modules/s3_bucket_info.py — get_bucket_location (claim C8) -/

/-- Python falsiness of a response value (`not data["LocationConstraint"]`):
null, the empty string and the empty dictionary are falsy. -/
def pyFalsyVal : JsonVal → Bool
  | .null => true
  | .str s => s = ""
  | .obj fields => fields.isEmpty

/-- Embedding of `get_bucket_location`: optionally rewrite a falsy
`LocationConstraint` to us-east-1 (a missing key raises `KeyError`, which
is passed over), then pop the top-level `ResponseMetadata` and return the
dictionary. -/
def get_bucket_location (response : JsonDict) (transform_location : Bool) :
    JsonDict :=
  let data :=
    if transform_location then
      match response.lookup "LocationConstraint" with
      | some v =>
        if pyFalsyVal v then
          dictSet response "LocationConstraint" (JsonVal.str "us-east-1")
        else response
      | none => response
    else response
  dictDel data "ResponseMetadata"

/-! ## Theorems -/

/-- C10 counterexample: for `tag_name="attic"` (set, no `tag_value`) the
code returns the tag name unchanged, because the strip is applied only
inside the `startswith("tag:")` branch, while Python
`"attic".strip("tag:")` would give `"ic"` — so the result is not
`{"tag-key": strip(tag_name)}` for every call, as the claim states. -/
theorem generate_tag_dict_not_always_stripped :
    generate_tag_dict (some "attic") none = some [("tag-key", "attic")] ∧
    pyStrip "attic" tagStripChars = "ic" ∧
    some [("tag-key", "attic")] ≠ some [("tag-key", pyStrip "attic" tagStripChars)] := by
  refine ⟨by decide, by decide, by decide⟩

/-- C10 (amended): with `tag_name` set and `tag_value` unset, the result is
`{"tag-key": k}` where `k` is `tag_name.strip("tag:")` (leading and
trailing characters from the set t,a,g,colon removed) when `tag_name`
starts with "tag:", and `tag_name` unchanged otherwise; consequently for
"tag:gateway" the key is "eway", not the substring "gateway" after the
prefix. -/
theorem generate_tag_dict_spec (tn : String) (h0 : tn ≠ "") :
    (pyStartsWith tn "tag:" = true →
      generate_tag_dict (some tn) none = some [("tag-key", pyStrip tn tagStripChars)]) ∧
    (pyStartsWith tn "tag:" = false →
      generate_tag_dict (some tn) none = some [("tag-key", tn)]) ∧
    pyStrip "tag:gateway" tagStripChars = "eway" := by
  refine ⟨?_, ?_, by decide⟩
  · intro hs
    simp [generate_tag_dict, h0, pyTruthyStr, hs]
  · intro hs
    simp [generate_tag_dict, h0, pyTruthyStr, hs]

/-- Witness for the amended C10 theorem at the tag name tag:gateway. -/
theorem generate_tag_dict_spec_witness :
    generate_tag_dict (some "tag:gateway") none = some [("tag-key", pyStrip "tag:gateway" tagStripChars)] :=
  (generate_tag_dict_spec "tag:gateway" (by decide)).1 (by decide)

/-- C5: in `LookupModule.get_secret_value` the generic client-error clause
raises before the `on_missing`/`on_denied` handling can run, so for every
combination of the two policies both a missing secret
(ResourceNotFoundException) and a denied secret (AccessDeniedException)
end in the fatal AnsibleError — `skip` and `warn` never omit the item. -/
theorem aws_secret_policy_matrix_dead :
    ∀ pm pd : SecretPolicy,
      get_secret_value (Except.error AwsErrorCode.resourceNotFound) pm pd
        = Except.error "Failed to retrieve secret" ∧
      get_secret_value (Except.error AwsErrorCode.accessDenied) pm pd
        = Except.error "Failed to retrieve secret" := by
  intro pm pd
  exact ⟨rfl, rfl⟩

/-- C1: the ec2_spot_instance_info module hard-codes `changed = True`, so a
purely read-only invocation (normal mode: one paginated describe and
nothing else; check mode: no request at all) exits with changed=true,
while the sibling ec2_placement_group_info module exits with
changed=false. -/
theorem spot_instance_info_changed_bug :
    describe_spot_instance_requests false [{ requestId := "sir-1" }]
      = (ModuleOutcome.exitJson true (some [{ requestId := "sir-1" }]),
         [SpotInfoCall.describeSpotInstanceRequests]) ∧
    ((describe_spot_instance_requests false [{ requestId := "sir-1" }]).2.all
      (fun call => !SpotInfoCall.isMutation call)) = true ∧
    describe_spot_instance_requests true [] = (ModuleOutcome.exitJson true none, []) ∧
    ec2_placement_group_info_main [] [] = ModuleOutcome.exitJson false [] := by
  refine ⟨by decide, by decide, by decide, by decide⟩

/-- C3: deleting an existing placement group in check mode issues the
delete request with `DryRun=True`; the `DryRunOperation` answer is caught
only by the generic error clause, so the run fails with "Couldnt delete
placement group" instead of reporting the changed=true a live run returns
from the same observed state — although, as claimed, the check-mode run
mutates nothing. -/
theorem placement_group_check_mode_delete_bug :
    (ec2_placement_group_main
        { name := "pg-a", partition_count := none, state := "absent",
          strategy := "cluster", tags := none } true
        [{ groupName := "pg-a", groupState := "available",
           strategy := "cluster", tags := [] }]
      = (ModuleOutcome.failJson "Couldnt delete placement group [pg-a]",
         [Ec2Call.deletePlacementGroup "pg-a" true],
         [{ groupName := "pg-a", groupState := "available",
            strategy := "cluster", tags := [] }])) ∧
    ((ec2_placement_group_main
        { name := "pg-a", partition_count := none, state := "absent",
          strategy := "cluster", tags := none } true
        [{ groupName := "pg-a", groupState := "available",
           strategy := "cluster", tags := [] }]).2.1.all
      (fun call => !Ec2Call.isMutation call)) = true ∧
    (ec2_placement_group_main
        { name := "pg-a", partition_count := none, state := "absent",
          strategy := "cluster", tags := none } false
        [{ groupName := "pg-a", groupState := "available",
           strategy := "cluster", tags := [] }]
      = (ModuleOutcome.exitJson true none,
         [Ec2Call.deletePlacementGroup "pg-a" false], [])) := by
  refine ⟨by decide, by decide, by decide⟩

/-- The scan of a single page finds the first matching entry. -/
lemma scanBackupPage_eq_find (name : String) (l : List BackupPlan) :
    scanBackupPage name l
      = (l.find? (fun p => name = p.backupPlanName)).map BackupPlan.backupPlanId := by
  induction l with
  | nil => rfl
  | cons p rest ih =>
    by_cases h : name = p.backupPlanName
    · rw [scanBackupPage, if_pos h, List.find?_cons_of_pos _ (by simpa using h)]
      rfl
    · rw [scanBackupPage, if_neg h, List.find?_cons_of_neg _ (by simpa using h), ih]

/-- The while loop finds the first match across the current page and the
remaining pages, in order. -/
lemma backupPlansLoop_eq_find (name : String) (current : List BackupPlan)
    (rest : List (List BackupPlan)) :
    backupPlansLoop name current rest
      = (((current :: rest).flatten).find? (fun p => name = p.backupPlanName)).map
          BackupPlan.backupPlanId := by
  induction rest generalizing current with
  | nil =>
    rw [backupPlansLoop, scanBackupPage_eq_find]
    cases hcur : current.find? (fun p => name = p.backupPlanName) <;> simp [hcur]
  | cons p rs ih =>
    rw [backupPlansLoop, scanBackupPage_eq_find]
    cases hcur : current.find? (fun p => name = p.backupPlanName) with
    | some q => simp [List.find?_append, hcur]
    | none =>
      rw [ih p]
      simp [List.find?_append, hcur]

/-- The function `_list_backup_plans` is the first-match lookup over the concatenation
of the pages in order. -/
lemma list_backup_plans_eq_find (name : String) (pages : List (List BackupPlan)) :
    list_backup_plans name pages
      = (pages.flatten.find? (fun p => name = p.backupPlanName)).map
          BackupPlan.backupPlanId := by
  match pages with
  | [] => rfl
  | [firstPage] =>
    rw [list_backup_plans, scanBackupPage_eq_find]
    simp
  | firstPage :: p :: rest =>
    rw [list_backup_plans, backupPlansLoop_eq_find]

/-- C9: when no page holds a plan of the requested name,
`_list_backup_plans` falls through to `None` and `get_plan_details`
returns the empty list; and `_list_backup_plans` always returns the
`BackupPlanId` of the first matching plan in page order (first page, then
each `NextToken` page). -/
theorem backup_plan_lookup_spec (name : String) (pages : List (List BackupPlan)) :
    ((∀ p ∈ pages.flatten, p.backupPlanName ≠ name) →
      list_backup_plans name pages = none ∧ get_plan_details name pages = []) ∧
    list_backup_plans name pages
      = (pages.flatten.find? (fun p => name = p.backupPlanName)).map
          BackupPlan.backupPlanId := by
  refine ⟨?_, list_backup_plans_eq_find name pages⟩
  intro hnone
  have hfind : pages.flatten.find? (fun p => name = p.backupPlanName) = none := by
    rw [List.find?_eq_none]
    intro x hx
    simpa using (hnone x hx).symm
  have h1 : list_backup_plans name pages = none := by
    rw [list_backup_plans_eq_find, hfind]
    rfl
  exact ⟨h1, by rw [get_plan_details, h1]⟩

/-- Witness for C9 on a concrete two-page fixture: the name "plan-x" is on
no page, so the details are empty; for a present name the first matching
id is returned. -/
theorem backup_plan_lookup_spec_witness :
    get_plan_details "plan-x"
      [[{ backupPlanName := "plan-a", backupPlanId := "id-a" }],
       [{ backupPlanName := "plan-b", backupPlanId := "id-b" }]] = [] ∧
    list_backup_plans "plan-b"
      [[{ backupPlanName := "plan-a", backupPlanId := "id-a" }],
       [{ backupPlanName := "plan-b", backupPlanId := "id-b" }]]
      = some "id-b" := by
  constructor
  · exact ((backup_plan_lookup_spec "plan-x"
      [[{ backupPlanName := "plan-a", backupPlanId := "id-a" }],
       [{ backupPlanName := "plan-b", backupPlanId := "id-b" }]]).1 (by decide)).2
  · rw [(backup_plan_lookup_spec "plan-b"
      [[{ backupPlanName := "plan-a", backupPlanId := "id-a" }],
       [{ backupPlanName := "plan-b", backupPlanId := "id-b" }]]).2]
    decide

/-- Python `!=` under equality is reflexive-false. -/
lemma pyOptNe_self {α : Type} [DecidableEq α] (x : Option α) :
    pyOptNe (fun a b => a = b) x x = false := by
  cases x <;> simp [pyOptNe]

/-- C7 counterexample: a desired metric transformation carrying an empty
dimensions map, compared against an observed filter whose dimensions key
is absent (and all other fields equal), yields change=true — the code
compares the raw `.get` values and an empty dict is not `None`. -/
theorem metric_filter_empty_dimensions_change :
    (metricTransformationHandler
      { metric_name := some "box_free_space",
        metric_namespace := some "fluentd_metrics",
        metric_value := some "$.value",
        default_value := none, unit := none, dimensions := some [] }
      (some { metric_name := some "box_free_space",
              metric_namespace := some "fluentd_metrics",
              metric_value := some "$.value",
              default_value := none, unit := none, dimensions := none })).2
      = true := by
  decide

/-- C7 (amended): when the three mandatory fields agree and the observed
transformation has none of the optional fields, the diff reports no change
exactly when the desired transformation also leaves all three optional
fields unset — an observed-absent optional field compares equal only to a
desired `None`, and a desired default/empty value such as an empty
dimensions map makes change=true. -/
theorem metric_filter_optional_fields_spec
    (mt origin : MetricTransformation)
    (h1 : mt.metric_name = origin.metric_name)
    (h2 : mt.metric_namespace = origin.metric_namespace)
    (h3 : mt.metric_value = origin.metric_value)
    (hd : origin.default_value = none)
    (hu : origin.unit = none)
    (hdim : origin.dimensions = none) :
    (metricTransformationHandler mt (some origin)).2 = false ↔
      mt.default_value = none ∧ mt.unit = none ∧ mt.dimensions = none := by
  rw [metricTransformationHandler]
  simp only [h1, h2, h3, hd, hu, hdim, pyOptNe_self]
  cases hmtd : mt.default_value <;> cases hmtu : mt.unit <;>
    cases hmtdim : mt.dimensions <;> simp [pyOptNe]

/-- Witness for the amended C7 theorem: two fully-unset transformations
compare as no change. -/
theorem metric_filter_optional_fields_spec_witness :
    (metricTransformationHandler
      { metric_name := some "m", metric_namespace := some "n",
        metric_value := some "v", default_value := none, unit := none,
        dimensions := none }
      (some { metric_name := some "m", metric_namespace := some "n",
              metric_value := some "v", default_value := none, unit := none,
              dimensions := none })).2 = false :=
  (metric_filter_optional_fields_spec
    { metric_name := some "m", metric_namespace := some "n",
      metric_value := some "v", default_value := none, unit := none,
      dimensions := none }
    { metric_name := some "m", metric_namespace := some "n",
      metric_value := some "v", default_value := none, unit := none,
      dimensions := none }
    rfl rfl rfl rfl rfl rfl).mpr ⟨rfl, rfl, rfl⟩

/-- C6: when the named placement group exists (the lookup resolves to it)
but its strategy differs from the desired one, the module fails with the
explicit cant-change-strategy error, issues no API request at all — so
neither a delete nor a recreate — and the remote state is untouched. -/
theorem placement_group_strategy_immutable
    (params : PlacementGroupParams) (checkMode : Bool)
    (server : List PlacementGroup) (pg : PlacementGroupAttrs)
    (hpresent : params.state = "present")
    (hfound : search_placement_group server params.name = some pg)
    (hdiff : pg.strategy ≠ params.strategy) :
    ec2_placement_group_main params checkMode server
      = (ModuleOutcome.failJson ("Placement group [" ++ params.name ++
          "] exists, cant change strategy from [" ++ pg.strategy ++
          "] to [" ++ params.strategy ++ "]"), [], server) := by
  rw [ec2_placement_group_main, if_pos hpresent, hfound]
  simp [hdiff]

/-- Witness for C6 at the spec scenario: desired strategy spread against
an observed cluster group. -/
theorem placement_group_strategy_immutable_witness :
    ec2_placement_group_main
      { name := "my-cluster", partition_count := none, state := "present",
        strategy := "spread", tags := none } false
      [{ groupName := "my-cluster", groupState := "available",
         strategy := "cluster", tags := [] }]
      = (ModuleOutcome.failJson ("Placement group [my-cluster] exists, cant change strategy from [cluster] to [spread]"),
         [],
         [{ groupName := "my-cluster", groupState := "available",
            strategy := "cluster", tags := [] }]) :=
  placement_group_strategy_immutable
    { name := "my-cluster", partition_count := none, state := "present",
      strategy := "spread", tags := none } false
    [{ groupName := "my-cluster", groupState := "available",
       strategy := "cluster", tags := [] }]
    { name := "my-cluster", state := "available",
      strategy := "cluster", tags := [] }
    rfl (by decide) (by decide)

/-- C2 counterexample: the reverse-DNS path of ec2_eip issues
`modify_address_attribute` unconditionally, so two successive runs with
identical parameters — the second observing the state the first produced —
both report changed=true. -/
theorem eip_reverse_dns_not_idempotent :
    (update_reverse_dns_record_of_eip [("eipalloc-1", "old.example.com")]
      "eipalloc-1" "example.com" false).1 = ModuleOutcome.exitJson true true ∧
    (update_reverse_dns_record_of_eip
      (update_reverse_dns_record_of_eip [("eipalloc-1", "old.example.com")]
        "eipalloc-1" "example.com" false).2
      "eipalloc-1" "example.com" false).1 = ModuleOutcome.exitJson true true := by
  refine ⟨by decide, by decide⟩

/-- A successful single-match lookup means the name-filtered describe held
exactly one group. -/
lemma search_placement_group_some_length
    (server : List PlacementGroup) (name : String) (pg : PlacementGroupAttrs)
    (h : search_placement_group server name = some pg) :
    (describe_placement_groups_by_name server name).length = 1 := by
  by_contra hl
  rw [search_placement_group, if_pos hl] at h
  exact Option.noConfusion h

/-- C2 (amended): the placement-group reconciliation is idempotent — if a
run with check mode off exits (rather than failing), the immediately
following run with the same parameters, observing the state the first run
left behind, exits with changed=false, issues no request, and leaves the
state untouched. (The EIP reverse-DNS path is the exception the
counterexample records.) -/
theorem placement_group_reconcile_idempotent
    (params : PlacementGroupParams) (server : List PlacementGroup)
    (c : Bool) (p : Option PlacementGroupAttrs)
    (h : (ec2_placement_group_main params false server).1
          = ModuleOutcome.exitJson c p) :
    ∃ q, ec2_placement_group_main params false
          (ec2_placement_group_main params false server).2.2
        = (ModuleOutcome.exitJson false q, [],
           (ec2_placement_group_main params false server).2.2) := by
  by_cases hstate : params.state = "present"
  · cases hsearch : search_placement_group server params.name with
    | none =>
      by_cases hbad : params.strategy ≠ "partition" ∧ pyTruthyNat params.partition_count
      · exfalso
        rw [ec2_placement_group_main, if_pos hstate, hsearch] at h
        rw [create_placement_group, if_pos hbad] at h
        exact absurd h (by simp)
      · by_cases hdup : (describe_placement_groups_by_name server params.name).length ≠ 0
        · exfalso
          rw [ec2_placement_group_main, if_pos hstate, hsearch] at h
          rw [create_placement_group, if_neg hbad, ec2CreatePlacementGroup,
            if_pos hdup] at h
          exact absurd h (by simp)
        · have hnil : describe_placement_groups_by_name server params.name = [] := by
            rw [← List.length_eq_zero]
            omega
          have hrun1 : ec2_placement_group_main params false server
              = (ModuleOutcome.exitJson true
                  (get_placement_group_information
                    (server ++ [{ groupName := params.name,
                                  groupState := "available",
                                  strategy := params.strategy,
                                  tags := params.tags.getD [] }]) params.name),
                 [Ec2Call.createPlacementGroup params.name params.strategy false],
                 server ++ [{ groupName := params.name,
                              groupState := "available",
                              strategy := params.strategy,
                              tags := params.tags.getD [] }]) := by
            rw [ec2_placement_group_main, if_pos hstate, hsearch]
            rw [create_placement_group, if_neg hbad, ec2CreatePlacementGroup,
              if_neg hdup]
            simp
          rw [hrun1]
          show ∃ q, ec2_placement_group_main params false
              (server ++ [{ groupName := params.name, groupState := "available",
                            strategy := params.strategy,
                            tags := params.tags.getD [] }])
            = (ModuleOutcome.exitJson false q, [],
               server ++ [{ groupName := params.name, groupState := "available",
                            strategy := params.strategy,
                            tags := params.tags.getD [] }])
          have hdesc2 : describe_placement_groups_by_name
              (server ++ [{ groupName := params.name,
                            groupState := "available",
                            strategy := params.strategy,
                            tags := params.tags.getD [] }]) params.name
              = [{ groupName := params.name, groupState := "available",
                   strategy := params.strategy, tags := params.tags.getD [] }] := by
            rw [describe_placement_groups_by_name, List.filter_append]
            rw [describe_placement_groups_by_name] at hnil
            rw [hnil]
            simp
          have hsearch2 : search_placement_group
              (server ++ [{ groupName := params.name,
                            groupState := "available",
                            strategy := params.strategy,
                            tags := params.tags.getD [] }]) params.name
              = some { name := params.name, state := "available",
                       strategy := params.strategy,
                       tags := params.tags.getD [] } := by
            rw [search_placement_group, hdesc2]
            simp
          refine ⟨some { name := params.name, state := "available",
                         strategy := params.strategy,
                         tags := params.tags.getD [] }, ?_⟩
          rw [ec2_placement_group_main, if_pos hstate, hsearch2]
          simp
    | some pg =>
      by_cases hstrat : pg.strategy = params.strategy
      · have hrun1 : ec2_placement_group_main params false server
            = (ModuleOutcome.exitJson false (some pg), [], server) := by
          simp [ec2_placement_group_main, hstate, hsearch, hstrat]
        rw [hrun1]
        show ∃ q, ec2_placement_group_main params false server
          = (ModuleOutcome.exitJson false q, [], server)
        exact ⟨some pg, hrun1⟩
      · exfalso
        rw [ec2_placement_group_main, if_pos hstate, hsearch] at h
        simp [hstrat] at h
  · cases hsearch : search_placement_group server params.name with
    | none =>
      have hrun1 : ec2_placement_group_main params false server
          = (ModuleOutcome.exitJson false none, [], server) := by
        simp [ec2_placement_group_main, hstate, hsearch]
      rw [hrun1]
      show ∃ q, ec2_placement_group_main params false server
        = (ModuleOutcome.exitJson false q, [], server)
      exact ⟨none, hrun1⟩
    | some pg =>
      have hlen := search_placement_group_some_length server params.name pg hsearch
      have hnotzero : ¬((describe_placement_groups_by_name server params.name).length = 0) := by
        omega
      have hrun1 : ec2_placement_group_main params false server
          = (ModuleOutcome.exitJson true none,
             [Ec2Call.deletePlacementGroup params.name false],
             server.filter (fun g => g.groupName ≠ params.name)) := by
        rw [ec2_placement_group_main, if_neg hstate, hsearch]
        rw [delete_placement_group, ec2DeletePlacementGroup, if_neg hnotzero]
        simp
      rw [hrun1]
      show ∃ q, ec2_placement_group_main params false
          (server.filter (fun g => g.groupName ≠ params.name))
        = (ModuleOutcome.exitJson false q, [],
           server.filter (fun g => g.groupName ≠ params.name))
      have hsearch2 : search_placement_group
          (server.filter (fun g => g.groupName ≠ params.name)) params.name
          = none := by
        have hempty : describe_placement_groups_by_name
            (server.filter (fun g => g.groupName ≠ params.name)) params.name
            = [] := by
          rw [describe_placement_groups_by_name, List.filter_eq_nil_iff]
          intro a ha
          have := (List.mem_filter.mp ha).2
          simpa using this
        rw [search_placement_group, hempty]
        simp
      refine ⟨none, ?_⟩
      rw [ec2_placement_group_main, if_neg hstate, hsearch2]

/-- Witness for the amended C2 theorem: a fresh create (run one, changed
true) followed by a second run that reports changed=false. -/
theorem placement_group_reconcile_idempotent_witness :
    ∃ q, ec2_placement_group_main
          { name := "my-cluster", partition_count := none, state := "present",
            strategy := "cluster", tags := none } false
          (ec2_placement_group_main
            { name := "my-cluster", partition_count := none, state := "present",
              strategy := "cluster", tags := none } false []).2.2
        = (ModuleOutcome.exitJson false q, [],
           (ec2_placement_group_main
             { name := "my-cluster", partition_count := none, state := "present",
               strategy := "cluster", tags := none } false []).2.2) :=
  placement_group_reconcile_idempotent
    { name := "my-cluster", partition_count := none, state := "present",
      strategy := "cluster", tags := none } [] true
    (some { name := "my-cluster", state := "available",
            strategy := "cluster", tags := [] })
    (by decide)

/-- C4 counterexample: when the placement-group describe returns two
matches for one name, `search_placement_group` answers `None` — exactly
the value it answers for zero matches, so ambiguity is treated as
NotFound, not as a fatal error — and a present-state run then goes on to
issue a (mutating) create request. -/
theorem placement_group_ambiguity_not_fatal :
    search_placement_group
      [{ groupName := "pg-dup", groupState := "available",
         strategy := "cluster", tags := [] },
       { groupName := "pg-dup", groupState := "available",
         strategy := "spread", tags := [] }] "pg-dup" = none ∧
    search_placement_group [] "pg-dup" = none ∧
    (ec2_placement_group_main
      { name := "pg-dup", partition_count := none, state := "present",
        strategy := "cluster", tags := none } false
      [{ groupName := "pg-dup", groupState := "available",
         strategy := "cluster", tags := [] },
       { groupName := "pg-dup", groupState := "available",
         strategy := "spread", tags := [] }]).2.1
      = [Ec2Call.createPlacementGroup "pg-dup" "cluster" false] ∧
    Ec2Call.isMutation (Ec2Call.createPlacementGroup "pg-dup" "cluster" false)
      = true := by
  refine ⟨by decide, by decide, by decide, by decide⟩

/-- C4 (amended): the EIP lookup behaves as claimed — zero matches give the
distinguished `None`, more than one match raises the fatal
more-than-one-address error, and the main flow then fails before any
continuation can issue a request; the placement-group lookup, however,
folds any match count other than one (ambiguity included) into `None`,
after which a present-state run issues the create request. -/
theorem single_identity_lookup_spec :
    (∀ (server : List EipAddress) (ip : String), ip ≠ "" →
      describe_addresses server (AddressQuery.byPublicIp ip) = [] →
      find_address server (some ip) none true = Except.ok none) ∧
    (∀ (server : List EipAddress) (ip : String), ip ≠ "" →
      2 ≤ (describe_addresses server (AddressQuery.byPublicIp ip)).length →
      find_address server (some ip) none true
        = Except.error "Found more than one address") ∧
    (∀ (server : List EipAddress) (ip : String)
      (ensurePhase : Option EipAddress → ModuleOutcome Unit × List Ec2Call),
      ip ≠ "" →
      2 ≤ (describe_addresses server (AddressQuery.byPublicIp ip)).length →
      ec2_eip_main_flow server (some ip) none true ensurePhase
        = (ModuleOutcome.failJson "Found more than one address", [])) ∧
    (∀ (server : List PlacementGroup) (name : String),
      (describe_placement_groups_by_name server name).length ≠ 1 →
      search_placement_group server name = none) ∧
    (∀ (params : PlacementGroupParams) (server : List PlacementGroup),
      params.state = "present" →
      params.partition_count = none →
      2 ≤ (describe_placement_groups_by_name server params.name).length →
      ec2_placement_group_main params false server
        = (ModuleOutcome.failJson
            ("Couldnt create placement group [" ++ params.name ++ "]"),
           [Ec2Call.createPlacementGroup params.name params.strategy false],
           server)) := by
  have hfind : ∀ (server : List EipAddress) (ip : String), ip ≠ "" →
      2 ≤ (describe_addresses server (AddressQuery.byPublicIp ip)).length →
      find_address server (some ip) none true
        = Except.error "Found more than one address" := by
    intro server ip hip hlen
    rw [find_address]
    have hcond : ¬(pyTruthyStr (some ip) = false ∧ pyTruthyStr none = false) := by
      simp [pyTruthyStr, hip]
    rw [if_neg hcond]
    simp only [if_pos hip]
    cases hd : describe_addresses server (AddressQuery.byPublicIp ip) with
    | nil => rw [hd] at hlen; simp at hlen
    | cons a rest =>
      cases rest with
      | nil => rw [hd] at hlen; simp at hlen
      | cons b rs => simp [hip, hd]
  refine ⟨?_, hfind, ?_, ?_, ?_⟩
  · intro server ip hip hempty
    rw [find_address]
    have hcond : ¬(pyTruthyStr (some ip) = false ∧ pyTruthyStr none = false) := by
      simp [pyTruthyStr, hip]
    rw [if_neg hcond]
    simp [hip, hempty]
  · intro server ip ensurePhase hip hlen
    rw [ec2_eip_main_flow, hfind server ip hip hlen]
  · intro server name hlen
    rw [search_placement_group, if_pos hlen]
  · intro params server hpresent hpc hlen
    have hsearch : search_placement_group server params.name = none := by
      rw [search_placement_group]
      rw [if_pos (by omega)]
    rw [ec2_placement_group_main, if_pos hpresent, hsearch]
    have hbad : ¬(params.strategy ≠ "partition" ∧ pyTruthyNat params.partition_count) := by
      simp [hpc, pyTruthyNat]
    rw [create_placement_group, if_neg hbad, ec2CreatePlacementGroup,
      if_pos (by omega)]

/-- Witness for the amended C4 theorem on concrete fixtures: an empty
describe answer gives `None`, a two-address answer gives the fatal error
and a failed main flow, and the duplicated placement group ends in a
failed create after the ambiguous lookup. -/
theorem single_identity_lookup_spec_witness :
    find_address [] (some "1.2.3.4") none true = Except.ok none ∧
    find_address
      [{ publicIp := "1.2.3.4", instanceId := none,
         networkInterfaceId := none, allocationId := "a1" },
       { publicIp := "1.2.3.4", instanceId := none,
         networkInterfaceId := none, allocationId := "a2" }]
      (some "1.2.3.4") none true
      = Except.error "Found more than one address" ∧
    ec2_eip_main_flow
      [{ publicIp := "1.2.3.4", instanceId := none,
         networkInterfaceId := none, allocationId := "a1" },
       { publicIp := "1.2.3.4", instanceId := none,
         networkInterfaceId := none, allocationId := "a2" }]
      (some "1.2.3.4") none true (fun _ => (ModuleOutcome.exitJson false (), []))
      = (ModuleOutcome.failJson "Found more than one address", []) ∧
    ec2_placement_group_main
      { name := "pg-dup", partition_count := none, state := "present",
        strategy := "cluster", tags := none } false
      [{ groupName := "pg-dup", groupState := "available",
         strategy := "cluster", tags := [] },
       { groupName := "pg-dup", groupState := "available",
         strategy := "spread", tags := [] }]
      = (ModuleOutcome.failJson "Couldnt create placement group [pg-dup]",
         [Ec2Call.createPlacementGroup "pg-dup" "cluster" false],
         [{ groupName := "pg-dup", groupState := "available",
            strategy := "cluster", tags := [] },
          { groupName := "pg-dup", groupState := "available",
            strategy := "spread", tags := [] }]) := by
  refine ⟨single_identity_lookup_spec.1 [] "1.2.3.4" (by decide) (by decide),
    single_identity_lookup_spec.2.1 _ "1.2.3.4" (by decide) (by decide),
    single_identity_lookup_spec.2.2.1 _ "1.2.3.4" _ (by decide) (by decide),
    single_identity_lookup_spec.2.2.2.2 _ _ rfl rfl (by decide)⟩

/-- Deleting a key from a dictionary removes every binding of that key. -/
lemma dictDel_lookup (d : JsonDict) (k : String) :
    (dictDel d k).lookup k = none := by
  induction d with
  | nil => rfl
  | cons kv rest ih =>
    by_cases hk : kv.fst = k
    · simpa [dictDel, hk] using ih
    · have hne : (k == kv.fst) = false := by
        simp [BEq.beq]
        exact fun he => hk he.symm
      simpa [dictDel, hk, List.lookup, hne] using ih

/-- C8 counterexample: a `state=absent` run of route53_ksk with `wait=true`
refreshes `ChangeInfo` from the full `get_change` response, and `main`
strips `ResponseMetadata` only at the top level — the result handed to the
caller still holds the nested transport metadata (as `response_metadata`
after key normalization). -/
theorem route53_nested_response_metadata_kept :
    route53_ksk_main_absent "ACTIVE" true
      { deactivateCall := Except.ok [],
        deleteCall := Except.ok
          [("ChangeInfo", JsonVal.obj
             [("Id", JsonVal.str "/change/C1"), ("Status", JsonVal.str "PENDING")]),
           ("ResponseMetadata", JsonVal.obj
             [("RequestId", JsonVal.str "req-1")])],
        getChangeResponse :=
          [("ChangeInfo", JsonVal.obj
             [("Id", JsonVal.str "/change/C1"), ("Status", JsonVal.str "INSYNC")]),
           ("ResponseMetadata", JsonVal.obj
             [("RequestId", JsonVal.str "req-2")])] }
      = ModuleOutcome.exitJson true
          [("change_info", JsonVal.obj
             [("change_info", JsonVal.obj
                [("id", JsonVal.str "/change/C1"),
                 ("status", JsonVal.str "INSYNC")]),
              ("response_metadata", JsonVal.obj
                [("request_id", JsonVal.str "req-2")])])] ∧
    jsonFieldsHaveKey
      [("change_info", JsonVal.obj
         [("change_info", JsonVal.obj
            [("id", JsonVal.str "/change/C1"),
             ("status", JsonVal.str "INSYNC")]),
          ("response_metadata", JsonVal.obj
            [("request_id", JsonVal.str "req-2")])])]
      "response_metadata" = true := by
  exact ⟨rfl, rfl⟩

/-- C8 (amended): transport metadata is stripped from the top level of the
returned result — route53_ksk `main` deletes the top-level
`ResponseMetadata` of the delete response, and s3_bucket_info
`get_bucket_location` pops it — but not at deeper nesting levels: when the
delete waits, the `get_change` response stored under `ChangeInfo` keeps its
own `ResponseMetadata` in the returned result. -/
theorem response_metadata_strip_spec
    (ci md ci2 md2 : JsonVal) (api : Route53Responses)
    (hdel : api.deleteCall
      = Except.ok [("ChangeInfo", ci), ("ResponseMetadata", md)])
    (hgc : api.getChangeResponse
      = [("ChangeInfo", ci2), ("ResponseMetadata", md2)]) :
    route53_ksk_main_absent "ACTIVE" false api
      = ModuleOutcome.exitJson true [("change_info", camelValToSnake ci)] ∧
    route53_ksk_main_absent "ACTIVE" true api
      = ModuleOutcome.exitJson true
          [("change_info", JsonVal.obj
             [("change_info", camelValToSnake ci2),
              ("response_metadata", camelValToSnake md2)])] ∧
    (∀ d : JsonDict, dictContains (get_bucket_location d false) "ResponseMetadata" = false) := by
  have hsnake1 : camelToSnake "ChangeInfo" = "change_info" := by decide
  have hsnake2 : camelToSnake "ResponseMetadata" = "response_metadata" := by decide
  have hne1 : ("ACTIVE" : String) ≠ "INACTIVE" := by decide
  have hne2 : ("ChangeInfo" : String) ≠ "ResponseMetadata" := by decide
  refine ⟨?_, ?_, ?_⟩
  · rw [route53_ksk_main_absent, route53_ksk_delete, if_neg hne1, hdel]
    simp [dictContains, dictDel, List.lookup, camelFieldsToSnake, hsnake1, hne2]
  · rw [route53_ksk_main_absent, route53_ksk_delete, if_neg hne1, hdel]
    simp [hgc, dictSet, dictContains, dictDel, List.lookup, camelFieldsToSnake,
      camelValToSnake, hsnake1, hsnake2, hne2]
  · intro d
    rw [get_bucket_location, dictContains, dictDel_lookup]
    rfl

/-- Witness for the amended C8 theorem at a concrete delete response. -/
theorem response_metadata_strip_spec_witness :
    route53_ksk_main_absent "ACTIVE" false
      { deactivateCall := Except.ok [],
        deleteCall := Except.ok
          [("ChangeInfo", JsonVal.str "pending"),
           ("ResponseMetadata", JsonVal.str "req-1")],
        getChangeResponse :=
          [("ChangeInfo", JsonVal.str "insync"),
           ("ResponseMetadata", JsonVal.str "req-2")] }
      = ModuleOutcome.exitJson true [("change_info", JsonVal.str "pending")] :=
  (response_metadata_strip_spec (JsonVal.str "pending") (JsonVal.str "req-1")
    (JsonVal.str "insync") (JsonVal.str "req-2")
    { deactivateCall := Except.ok [],
      deleteCall := Except.ok
        [("ChangeInfo", JsonVal.str "pending"),
         ("ResponseMetadata", JsonVal.str "req-1")],
      getChangeResponse :=
        [("ChangeInfo", JsonVal.str "insync"),
         ("ResponseMetadata", JsonVal.str "req-2")] }
    rfl rfl).1

end AmazonAws
